import Mathlib

/-!
Verification development for the Telegramscalper trading bot.

The tracker (`TradeTracker` in `src/main.py`) is embedded shallowly:
Python's mutable `Trade` objects live in an explicit heap (`store`), and the
active dict, closed list and the two window lists hold references (indices)
into that heap, mirroring Python's reference semantics where the same object
is shared between the active dict and both window lists.  Python floats are
modelled as exact rationals (all profit values in the program are small
dyadic constants).  Python dicts are modelled as association lists with
insert-or-replace / remove-first operations, which coincide with dict
behaviour whenever keys are unique (always the case at runtime).
-/

/-- The `Trade` dataclass of `src/main.py` (lines 23-56).  Field order and
defaults follow the source; floats become `Rat`. -/
structure Trade where
  id : String
  symbol : String
  direction : String
  signal_type : String
  pattern : String
  entry : Rat
  stop_loss : Rat
  tp1 : Rat
  tp2 : Rat
  tp3 : Rat
  score : Int
  mode : String
  session : String
  timeframe : String
  bubble_strength : Int
  exhaustion_detected : Bool
  htf_trend : String
  strict_mode : Bool
  timestamp : String
  tp1_hit : Bool := false
  tp2_hit : Bool := false
  tp3_hit : Bool := false
  sl_hit : Bool := false
  closed : Bool := false
  final_result : String := "ACTIVE"
  profit_r : Rat := 0
deriving DecidableEq, Repr

/-- Placeholder trade used for out-of-range heap reads (never reached when
references are valid, as they always are in reachable states). -/
def dummyTrade : Trade :=
  { id := "", symbol := "", direction := "", signal_type := "", pattern := ""
    entry := 0, stop_loss := 0, tp1 := 0, tp2 := 0, tp3 := 0, score := 0
    mode := "", session := "", timeframe := "", bubble_strength := 0
    exhaustion_detected := false, htf_trend := "", strict_mode := false
    timestamp := "" }

/-- Python dict lookup (`d[k]` / `k in d`) on an association list. -/
def dictLookup (k : String) : List (String × Nat) → Option Nat
  | [] => none
  | (k', v) :: rest => if k' = k then some v else dictLookup k rest

/-- Python dict assignment `d[k] = v`: replace in place if the key exists,
else append. -/
def dictInsert (k : String) (v : Nat) : List (String × Nat) → List (String × Nat)
  | [] => [(k, v)]
  | (k', v') :: rest => if k' = k then (k, v) :: rest else (k', v') :: dictInsert k v rest

/-- Python dict `d.pop(k)` (key removal): drop the first entry with key `k`. -/
def dictRemove (k : String) : List (String × Nat) → List (String × Nat)
  | [] => []
  | (k', v') :: rest => if k' = k then rest else (k', v') :: dictRemove k rest

/-- List read with a fallback (used only to give heap reads a total type). -/
def nthD : List Trade → Nat → Trade
  | [], _ => dummyTrade
  | t :: _, 0 => t
  | _ :: rest, n + 1 => nthD rest n

/-- The `TradeTracker` state (`src/main.py` lines 58-65).  `store` is the
heap of allocated `Trade` objects; the other four components hold references
into it, exactly as the Python object graph does. -/
structure TradeTracker where
  store : List Trade
  active_trades : List (String × Nat)
  closed_trades : List Nat
  daily_trades : List Nat
  weekly_trades : List Nat
deriving DecidableEq, Repr

/-- `TradeTracker.__init__` (lines 61-65): all four collections empty. -/
def TradeTracker.init : TradeTracker :=
  { store := [], active_trades := [], closed_trades := [], daily_trades := []
    weekly_trades := [] }

/-- Dereference a trade reference in the tracker's heap. -/
def resolve (s : TradeTracker) (r : Nat) : Trade := nthD s.store r

/-- `TradeTracker.add_trade` (lines 67-72): allocate the trade, point the
active dict's entry for its id at it (overwriting any previous entry), and
append the same reference to both window lists. -/
def add_trade (s : TradeTracker) (t : Trade) : TradeTracker :=
  let r := s.store.length
  { s with
    store := s.store ++ [t]
    active_trades := dictInsert t.id r s.active_trades
    daily_trades := s.daily_trades ++ [r]
    weekly_trades := s.weekly_trades ++ [r] }

/-- `TradeTracker.close_trade` (lines 105-110): if the id is active, pop it
from the active dict and append the same reference to the closed list. -/
def close_trade (s : TradeTracker) (trade_id : String) : TradeTracker :=
  match dictLookup trade_id s.active_trades with
  | none => s
  | some r =>
    { s with
      active_trades := dictRemove trade_id s.active_trades
      closed_trades := s.closed_trades ++ [r] }

/-- `TradeTracker.update_trade_tp` (lines 74-92).  The `price` argument is
accepted and ignored, as in the source. -/
def update_trade_tp (s : TradeTracker) (trade_id level : String) (price : Rat) :
    TradeTracker :=
  match dictLookup trade_id s.active_trades with
  | none => s
  | some r =>
    let t := resolve s r
    if level = "TP1" then
      { s with store := s.store.set r { t with tp1_hit := true, profit_r := 3/2 } }
    else if level = "TP2" then
      { s with store := s.store.set r { t with tp2_hit := true, profit_r := 5/2 } }
    else if level = "TP3" then
      let t' := { t with tp3_hit := true, final_result := "TP3", profit_r := 4, closed := true }
      close_trade { s with store := s.store.set r t' } trade_id
    else s

/-- `TradeTracker.update_trade_sl` (lines 94-103). -/
def update_trade_sl (s : TradeTracker) (trade_id : String) : TradeTracker :=
  match dictLookup trade_id s.active_trades with
  | none => s
  | some r =>
    let t := resolve s r
    let t' := { t with sl_hit := true, final_result := "SL", profit_r := -1, closed := true }
    close_trade { s with store := s.store.set r t' } trade_id

/-- `TradeTracker.reset_daily` (lines 207-210): clear the daily list only. -/
def reset_daily (s : TradeTracker) : TradeTracker := { s with daily_trades := [] }

/-- `TradeTracker.reset_weekly` (lines 212-215): clear the weekly list only. -/
def reset_weekly (s : TradeTracker) : TradeTracker := { s with weekly_trades := [] }

/-- Result of `get_daily_stats` when the window is nonempty.  `noneClosed`
mirrors the reduced dict returned at lines 120-125 (only three keys);
`full` mirrors the complete dict at lines 138-152. -/
inductive DailyStats where
  | noneClosed (total_signals closed_trades active_trades : Nat)
  | full (total_signals closed_trades active_trades : Nat)
      (tp3_count tp2_count tp1_count sl_count wins losses : Nat)
      (win_rate total_r avg_r : Rat) (trades : List Trade)
deriving DecidableEq, Repr

/-- Per-symbol accumulator of `get_weekly_stats` (lines 180-188). -/
structure SymStats where
  wins : Nat
  losses : Nat
  total_r : Rat
deriving DecidableEq, Repr

/-- Result of `get_weekly_stats` when the window is nonempty (lines 162-205):
the daily fields plus the per-symbol breakdown. -/
inductive WeeklyStats where
  | noneClosed (total_signals closed_trades active_trades : Nat)
  | full (total_signals closed_trades active_trades : Nat)
      (tp3_count tp2_count tp1_count sl_count wins losses : Nat)
      (win_rate total_r avg_r : Rat)
      (by_symbol : List (String × SymStats)) (trades : List Trade)
deriving DecidableEq, Repr

/-- One step of the `by_symbol` accumulation (lines 181-188): dict
insert-or-update keyed by symbol. -/
def bySymbolStep (sym : String) (isWin : Bool) (r : Rat) :
    List (String × SymStats) → List (String × SymStats)
  | [] =>
    [(sym, { wins := if isWin then 1 else 0, losses := if isWin then 0 else 1
             total_r := r })]
  | (k, v) :: rest =>
    if k = sym then
      (k, { wins := v.wins + (if isWin then 1 else 0)
            losses := v.losses + (if isWin then 0 else 1)
            total_r := v.total_r + r }) :: rest
    else (k, v) :: bySymbolStep sym isWin r rest

/-- The `by_symbol` dict built by the loop at lines 180-188. -/
def bySymbolOf (closedList : List Trade) : List (String × SymStats) :=
  closedList.foldl
    (fun acc t =>
      bySymbolStep t.symbol ((["TP1", "TP2", "TP3"] : List String).contains t.final_result)
        t.profit_r acc)
    []

/-- `TradeTracker.get_daily_stats` (lines 112-152).  Returns `none` for the
Python `None` on an empty window. -/
def get_daily_stats (s : TradeTracker) : Option DailyStats :=
  if s.daily_trades.isEmpty then none
  else
    let ts := s.daily_trades.map (resolve s)
    let total := ts.length
    let closedList := ts.filter (fun t => t.closed)
    if closedList.isEmpty then some (.noneClosed total 0 total)
    else
      let tp3_count := (closedList.filter (fun t => t.final_result == "TP3")).length
      let tp2_count := (closedList.filter (fun t => t.final_result == "TP2")).length
      let tp1_count := (closedList.filter (fun t => t.final_result == "TP1")).length
      let sl_count := (closedList.filter (fun t => t.final_result == "SL")).length
      let wins := tp3_count + tp2_count + tp1_count
      let win_rate : Rat :=
        if closedList.isEmpty then 0 else (wins : Rat) / (closedList.length : Rat) * 100
      let total_r : Rat := (closedList.map (fun t => t.profit_r)).sum
      let avg_r : Rat :=
        if closedList.isEmpty then 0 else total_r / (closedList.length : Rat)
      some (.full total closedList.length (total - closedList.length)
        tp3_count tp2_count tp1_count sl_count wins sl_count
        win_rate total_r avg_r ts)

/-- `TradeTracker.get_weekly_stats` (lines 154-205). -/
def get_weekly_stats (s : TradeTracker) : Option WeeklyStats :=
  if s.weekly_trades.isEmpty then none
  else
    let ts := s.weekly_trades.map (resolve s)
    let total := ts.length
    let closedList := ts.filter (fun t => t.closed)
    if closedList.isEmpty then some (.noneClosed total 0 total)
    else
      let tp3_count := (closedList.filter (fun t => t.final_result == "TP3")).length
      let tp2_count := (closedList.filter (fun t => t.final_result == "TP2")).length
      let tp1_count := (closedList.filter (fun t => t.final_result == "TP1")).length
      let sl_count := (closedList.filter (fun t => t.final_result == "SL")).length
      let wins := tp3_count + tp2_count + tp1_count
      let win_rate : Rat :=
        if closedList.isEmpty then 0 else (wins : Rat) / (closedList.length : Rat) * 100
      let total_r : Rat := (closedList.map (fun t => t.profit_r)).sum
      let avg_r : Rat :=
        if closedList.isEmpty then 0 else total_r / (closedList.length : Rat)
      some (.full total closedList.length (total - closedList.length)
        tp3_count tp2_count tp1_count sl_count wins sl_count
        win_rate total_r avg_r (bySymbolOf closedList) ts)

/-- The `tp1_count` key of a daily snapshot dict (0 where the key is absent). -/
def DailyStats.tp1Count : DailyStats → Nat
  | .noneClosed _ _ _ => 0
  | .full _ _ _ _ _ c _ _ _ _ _ _ _ => c

/-- The `tp2_count` key of a daily snapshot dict (0 where the key is absent). -/
def DailyStats.tp2Count : DailyStats → Nat
  | .noneClosed _ _ _ => 0
  | .full _ _ _ _ c _ _ _ _ _ _ _ _ => c

/-- The `tp1_count` key of a weekly snapshot dict (0 where the key is absent). -/
def WeeklyStats.tp1Count : WeeklyStats → Nat
  | .noneClosed _ _ _ => 0
  | .full _ _ _ _ _ c _ _ _ _ _ _ _ _ => c

/-- The `tp2_count` key of a weekly snapshot dict (0 where the key is absent). -/
def WeeklyStats.tp2Count : WeeklyStats → Nat
  | .noneClosed _ _ _ => 0
  | .full _ _ _ _ c _ _ _ _ _ _ _ _ _ => c

/-- True exactly on the complete snapshot dict (the one carrying win rate,
outcome counts and R totals). -/
def DailyStats.isFull : DailyStats → Bool
  | .noneClosed _ _ _ => false
  | .full _ _ _ _ _ _ _ _ _ _ _ _ _ => true

/-- The `win_rate` key of a daily snapshot, where present. -/
def DailyStats.winRate : DailyStats → Option Rat
  | .noneClosed _ _ _ => none
  | .full _ _ _ _ _ _ _ _ _ w _ _ _ => some w

/-- Check whether `small` occurs as a contiguous run inside `hay`
(Python's `small in hay` on strings, over the character lists). -/
def containsSub (small : List Char) : List Char → Bool
  | [] => small.isPrefixOf ([] : List Char)
  | c :: rest => small.isPrefixOf (c :: rest) || containsSub small rest

/-- Python's `pat in s` membership test on strings. -/
def strContains (s pat : String) : Bool := containsSub pat.data s.data

/-- Modelled from the spec: trade direction after boundary normalization
(spec section 4.1 matches direction strings case-insensitively against
LONG/BUY versus SHORT/SELL and rejects anything else before this
component, so the core sees a closed two-value type). -/
inductive Direction where
  | long
  | short
deriving DecidableEq, Repr

/-- Modelled from the spec: the `MarketClass` enumeration of section 3. -/
inductive MarketClass where
  | forex
  | crypto
  | commodity
  | index
deriving DecidableEq, Repr

/-- Modelled from the spec: pip-size resolution of section 4.1 step 1
(0.01 for JPY-quoted pairs and XAU/XAG, 1.0 for BTC, 0.1 for ETH,
0.01 for SOL, else 0.0001). -/
def pipSize (symbol : String) : Rat :=
  if strContains symbol "JPY" then 1/100
  else if strContains symbol "XAU" then 1/100
  else if strContains symbol "XAG" then 1/100
  else if strContains symbol "BTC" then 1
  else if strContains symbol "ETH" then 1/10
  else if strContains symbol "SOL" then 1/100
  else 1/10000

/-- Modelled from the spec: a timeframe's stop profile (section 3): three
base distances keyed by asset class (pip count, crypto points, gold
points). -/
structure StopProfile where
  pips : Rat
  cryptoPoints : Rat
  goldPoints : Rat
deriving DecidableEq, Repr

/-- Modelled from the spec: the static stop-profile table keyed by
timeframe.  The spec fixes only the M15 row (8 pips, section 8 example)
and that an unknown timeframe falls back to the M5 profile; the remaining
rows are representative static configuration, all strictly positive. -/
def stopProfile (tf : String) : StopProfile :=
  if tf = "M1" then { pips := 5, cryptoPoints := 50, goldPoints := 2 }
  else if tf = "M3" then { pips := 6, cryptoPoints := 80, goldPoints := 5/2 }
  else if tf = "M5" then { pips := 7, cryptoPoints := 100, goldPoints := 3 }
  else if tf = "M15" then { pips := 8, cryptoPoints := 150, goldPoints := 4 }
  else if tf = "M30" then { pips := 10, cryptoPoints := 200, goldPoints := 5 }
  else if tf = "H1" then { pips := 12, cryptoPoints := 300, goldPoints := 6 }
  else if tf = "H4" then { pips := 15, cryptoPoints := 500, goldPoints := 8 }
  else if tf = "D1" then { pips := 20, cryptoPoints := 800, goldPoints := 10 }
  else { pips := 7, cryptoPoints := 100, goldPoints := 3 }

/-- Modelled from the spec: the static reward-profile table (section 3), an
ordered triple of strictly increasing risk multiples per timeframe.  The
spec fixes only the M15 row as (2, 3, 4) and the M5 fallback; other rows
are representative, all strictly increasing and positive. -/
def rewardMultiples (tf : String) : Rat × Rat × Rat :=
  if tf = "M1" then (3/2, 5/2, 7/2)
  else if tf = "M3" then (3/2, 5/2, 4)
  else if tf = "M5" then (2, 3, 4)
  else if tf = "M15" then (2, 3, 4)
  else if tf = "M30" then (2, 3, 9/2)
  else if tf = "H1" then (5/2, 7/2, 5)
  else if tf = "H4" then (5/2, 4, 6)
  else if tf = "D1" then (3, 5, 8)
  else (2, 3, 4)

/-- Modelled from the spec: the class-appropriate base distance of section
4.1 step 2 (pip count for FOREX, else the class's native point count;
COMMODITY and INDEX use the gold-point distance, CRYPTO the crypto-point
distance). -/
def baseDistance (mc : MarketClass) (p : StopProfile) : Rat :=
  match mc with
  | .forex => p.pips
  | .crypto => p.cryptoPoints
  | .commodity => p.goldPoints
  | .index => p.goldPoints

/-- Modelled from the spec: one take-profit record of a `TradePlan`
(section 3): level index, absolute price, distance from entry and the risk
multiple used. -/
structure TPRecord where
  levelIndex : Nat
  price : Rat
  distance : Rat
  riskMultiple : Rat
deriving DecidableEq, Repr

/-- Modelled from the spec: the `TradePlan` output of the Risk Engine
(section 3). -/
structure TradePlan where
  symbol : String
  direction : Direction
  entry : Rat
  stopLoss : Rat
  stopDistance : Rat
  takeProfits : List TPRecord
deriving DecidableEq, Repr

/-- Modelled from the spec: the Risk Engine's `computePlan` (section 4.1),
which is absent from `src/` (the source receives precomputed prices in the
webhook payload).  Steps: resolve pip size, select the class-appropriate
base distance, scale by pip size for FOREX, place the stop on the losing
side of entry, and place three take-profits on the profit side at the
timeframe's risk multiples of the stop distance. -/
def computePlan (symbol : String) (entry : Rat) (direction : Direction)
    (tf : String) (mc : MarketClass) : TradePlan :=
  let p := stopProfile tf
  let base := baseDistance mc p
  let dist := match mc with
    | .forex => base * pipSize symbol
    | _ => base
  let stop := match direction with
    | .long => entry - dist
    | .short => entry + dist
  let (r1, r2, r3) := rewardMultiples tf
  let mkTP := fun (i : Nat) (r : Rat) =>
    let d := dist * r
    let price := match direction with
      | .long => entry + d
      | .short => entry - d
    TPRecord.mk i price d r
  { symbol := symbol, direction := direction, entry := entry, stopLoss := stop
    stopDistance := dist, takeProfits := [mkTP 1 r1, mkTP 2 r2, mkTP 3 r3] }

theorem dictLookup_dictInsert_self (k : String) (v : Nat) (l : List (String × Nat)) :
    dictLookup k (dictInsert k v l) = some v := by
  induction l with
  | nil => simp [dictInsert, dictLookup]
  | cons p rest ih =>
    obtain ⟨k', v'⟩ := p
    by_cases h : k' = k
    · simp [dictInsert, dictLookup, h]
    · simp [dictInsert, dictLookup, h, ih]

theorem mem_dictInsert {p : String × Nat} {k : String} {v : Nat}
    {l : List (String × Nat)} (h : p ∈ dictInsert k v l) : p = (k, v) ∨ p ∈ l := by
  induction l with
  | nil => simpa [dictInsert] using h
  | cons q rest ih =>
    obtain ⟨k', v'⟩ := q
    by_cases hk : k' = k
    · simp only [dictInsert, if_pos hk, List.mem_cons] at h
      rcases h with h | h
      · exact Or.inl h
      · exact Or.inr (List.mem_cons_of_mem _ h)
    · simp only [dictInsert, if_neg hk, List.mem_cons] at h
      rcases h with h | h
      · exact Or.inr (by simp [h])
      · rcases ih h with h' | h'
        · exact Or.inl h'
        · exact Or.inr (List.mem_cons_of_mem _ h')

theorem mem_dictRemove {p : String × Nat} {k : String} {l : List (String × Nat)}
    (h : p ∈ dictRemove k l) : p ∈ l := by
  induction l with
  | nil => simpa [dictRemove] using h
  | cons q rest ih =>
    obtain ⟨k', v'⟩ := q
    by_cases hk : k' = k
    · simp only [dictRemove, if_pos hk] at h
      exact List.mem_cons_of_mem _ h
    · simp only [dictRemove, if_neg hk, List.mem_cons] at h
      rcases h with h | h
      · simp [h]
      · exact List.mem_cons_of_mem _ (ih h)

theorem dictLookup_mem {k : String} {v : Nat} {l : List (String × Nat)}
    (h : dictLookup k l = some v) : (k, v) ∈ l := by
  induction l with
  | nil => simp [dictLookup] at h
  | cons q rest ih =>
    obtain ⟨k', v'⟩ := q
    by_cases hk : k' = k
    · simp only [dictLookup, if_pos hk, Option.some.injEq] at h
      simp [hk, h]
    · simp only [dictLookup, if_neg hk] at h
      exact List.mem_cons_of_mem _ (ih h)

theorem dictLookup_dictRemove_self (k : String) (l : List (String × Nat))
    (h : (l.map Prod.fst).Nodup) : dictLookup k (dictRemove k l) = none := by
  induction l with
  | nil => simp [dictRemove, dictLookup]
  | cons q rest ih =>
    obtain ⟨k', v'⟩ := q
    simp only [List.map_cons, List.nodup_cons] at h
    by_cases hk : k' = k
    · simp only [dictRemove, if_pos hk]
      subst hk
      cases hl : dictLookup k' rest with
      | none => rfl
      | some v =>
        exact absurd (List.mem_map_of_mem Prod.fst (dictLookup_mem hl)) h.1
    · simp [dictRemove, if_neg hk, dictLookup, hk, ih h.2]

theorem snd_ne_of_mem_dictRemove {k : String} {r : Nat} {l : List (String × Nat)}
    (hn : (l.map Prod.snd).Nodup) (hl : dictLookup k l = some r) :
    ∀ p ∈ dictRemove k l, p.2 ≠ r := by
  induction l with
  | nil => simp [dictRemove]
  | cons q rest ih =>
    obtain ⟨k', v'⟩ := q
    simp only [List.map_cons, List.nodup_cons] at hn
    by_cases hk : k' = k
    · simp only [dictLookup, if_pos hk, Option.some.injEq] at hl
      subst hl
      intro p hp
      simp only [dictRemove, if_pos hk] at hp
      intro hpr
      exact hn.1 (hpr ▸ List.mem_map_of_mem Prod.snd hp)
    · simp only [dictLookup, if_neg hk] at hl
      intro p hp
      simp only [dictRemove, if_neg hk, List.mem_cons] at hp
      rcases hp with hp | hp
      · subst hp
        intro hpr
        have hv : v' = r := hpr
        subst hv
        exact hn.1 (List.mem_map_of_mem Prod.snd (dictLookup_mem hl))
      · exact ih hn.2 hl p hp

theorem nodup_snd_dictRemove {k : String} {l : List (String × Nat)}
    (h : (l.map Prod.snd).Nodup) : ((dictRemove k l).map Prod.snd).Nodup := by
  induction l with
  | nil => simpa [dictRemove] using h
  | cons q rest ih =>
    obtain ⟨k', v'⟩ := q
    simp only [List.map_cons, List.nodup_cons] at h
    by_cases hk : k' = k
    · simpa [dictRemove, if_pos hk] using h.2
    · simp only [dictRemove, if_neg hk, List.map_cons, List.nodup_cons]
      refine ⟨fun hm => h.1 ?_, ih h.2⟩
      obtain ⟨p, hp, hps⟩ := List.mem_map.mp hm
      exact List.mem_map.mpr ⟨p, mem_dictRemove hp, hps⟩

theorem mem_snd_dictInsert {x : Nat} {k : String} {v : Nat} {l : List (String × Nat)}
    (h : x ∈ (dictInsert k v l).map Prod.snd) : x = v ∨ x ∈ l.map Prod.snd := by
  obtain ⟨p, hp, hps⟩ := List.mem_map.mp h
  rcases mem_dictInsert hp with h' | h'
  · left; rw [← hps, h']
  · right; exact List.mem_map.mpr ⟨p, h', hps⟩

theorem nodup_snd_dictInsert {k : String} {v : Nat} {l : List (String × Nat)}
    (h : (l.map Prod.snd).Nodup) (hv : v ∉ l.map Prod.snd) :
    ((dictInsert k v l).map Prod.snd).Nodup := by
  induction l with
  | nil => simp [dictInsert]
  | cons q rest ih =>
    obtain ⟨k', v'⟩ := q
    simp only [List.map_cons, List.nodup_cons] at h
    simp only [List.map_cons, List.mem_cons] at hv
    push_neg at hv
    by_cases hk : k' = k
    · simp only [dictInsert, if_pos hk, List.map_cons, List.nodup_cons]
      exact ⟨hv.2, h.2⟩
    · simp only [dictInsert, if_neg hk, List.map_cons, List.nodup_cons]
      refine ⟨fun hm => ?_, ih h.2 hv.2⟩
      rcases mem_snd_dictInsert hm with h' | h'
      · exact hv.1 h'.symm
      · exact h.1 h'

theorem nodup_keys_dictInsert {k : String} {v : Nat} {l : List (String × Nat)}
    (h : (l.map Prod.fst).Nodup) : ((dictInsert k v l).map Prod.fst).Nodup := by
  induction l with
  | nil => simp [dictInsert]
  | cons q rest ih =>
    obtain ⟨k', v'⟩ := q
    simp only [List.map_cons, List.nodup_cons] at h
    by_cases hk : k' = k
    · simp only [dictInsert, if_pos hk, List.map_cons, List.nodup_cons]
      exact ⟨hk ▸ h.1, h.2⟩
    · simp only [dictInsert, if_neg hk, List.map_cons, List.nodup_cons]
      refine ⟨fun hm => ?_, ih h.2⟩
      obtain ⟨p, hp, hps⟩ := List.mem_map.mp hm
      rcases mem_dictInsert hp with h' | h'
      · apply hk
        rw [← hps, h']
      · exact h.1 (List.mem_map.mpr ⟨p, h', hps⟩)

theorem nodup_keys_dictRemove {k : String} {l : List (String × Nat)}
    (h : (l.map Prod.fst).Nodup) : ((dictRemove k l).map Prod.fst).Nodup := by
  induction l with
  | nil => simpa [dictRemove] using h
  | cons q rest ih =>
    obtain ⟨k', v'⟩ := q
    simp only [List.map_cons, List.nodup_cons] at h
    by_cases hk : k' = k
    · simpa [dictRemove, if_pos hk] using h.2
    · simp only [dictRemove, if_neg hk, List.map_cons, List.nodup_cons]
      refine ⟨fun hm => h.1 ?_, ih h.2⟩
      obtain ⟨p, hp, hps⟩ := List.mem_map.mp hm
      exact List.mem_map.mpr ⟨p, mem_dictRemove hp, hps⟩

theorem nthD_set_self (l : List Trade) (n : Nat) (t : Trade) (h : n < l.length) :
    nthD (l.set n t) n = t := by
  induction l generalizing n with
  | nil => simp at h
  | cons a rest ih =>
    cases n with
    | zero => simp [List.set, nthD]
    | succ m =>
      simp only [List.set, nthD]
      exact ih m (by simpa using h)

theorem nthD_set_ne (l : List Trade) (n m : Nat) (t : Trade) (h : m ≠ n) :
    nthD (l.set n t) m = nthD l m := by
  induction l generalizing n m with
  | nil => simp [List.set]
  | cons a rest ih =>
    cases n with
    | zero =>
      cases m with
      | zero => exact absurd rfl h
      | succ j => simp [List.set, nthD]
    | succ i =>
      cases m with
      | zero => simp [List.set, nthD]
      | succ j =>
        simp only [List.set, nthD]
        exact ih i j (fun hc => h (by rw [hc]))

theorem nthD_append_lt (l l' : List Trade) (n : Nat) (h : n < l.length) :
    nthD (l ++ l') n = nthD l n := by
  induction l generalizing n with
  | nil => simp at h
  | cons a rest ih =>
    cases n with
    | zero => simp [nthD]
    | succ m =>
      simp only [List.cons_append, nthD]
      exact ih m (by simpa using h)

theorem nthD_append_self (l : List Trade) (t : Trade) :
    nthD (l ++ [t]) l.length = t := by
  induction l with
  | nil => simp [nthD]
  | cons a rest ih => simpa [nthD] using ih

theorem mem_of_mem_set {t' t : Trade} {l : List Trade} {n : Nat}
    (h : t' ∈ l.set n t) : t' = t ∨ t' ∈ l := by
  rcases List.mem_or_eq_of_mem_set h with h' | h'
  · exact Or.inr h'
  · exact Or.inl h'

theorem set_of_length_le (l : List Trade) (n : Nat) (t : Trade)
    (h : l.length ≤ n) : l.set n t = l := by
  induction l generalizing n with
  | nil => simp
  | cons a rest ih =>
    cases n with
    | zero => simp at h
    | succ m =>
      simp only [List.set]
      rw [ih m (by simpa using h)]

theorem nthD_mem_or_dummy (l : List Trade) (n : Nat) :
    nthD l n ∈ l ∨ nthD l n = dummyTrade := by
  induction l generalizing n with
  | nil => simp [nthD]
  | cons a rest ih =>
    cases n with
    | zero => simp [nthD]
    | succ m =>
      rcases ih m with h | h
      · exact Or.inl (List.mem_cons_of_mem _ h)
      · exact Or.inr h

theorem nthD_mem (l : List Trade) (n : Nat) (h : n < l.length) : nthD l n ∈ l := by
  induction l generalizing n with
  | nil => simp at h
  | cons a rest ih =>
    cases n with
    | zero => simp [nthD]
    | succ m => exact List.mem_cons_of_mem _ (ih m (by simpa using h))

theorem close_trade_frame (s : TradeTracker) (trade_id : String) :
    (close_trade s trade_id).daily_trades = s.daily_trades ∧
    (close_trade s trade_id).weekly_trades = s.weekly_trades ∧
    (close_trade s trade_id).store = s.store := by
  unfold close_trade
  cases dictLookup trade_id s.active_trades <;> exact ⟨rfl, rfl, rfl⟩

theorem update_tp_windows (s : TradeTracker) (trade_id level : String) (p : Rat) :
    (update_trade_tp s trade_id level p).daily_trades = s.daily_trades ∧
    (update_trade_tp s trade_id level p).weekly_trades = s.weekly_trades := by
  unfold update_trade_tp
  cases dictLookup trade_id s.active_trades with
  | none => exact ⟨rfl, rfl⟩
  | some r =>
    dsimp only
    split_ifs
    · exact ⟨rfl, rfl⟩
    · exact ⟨rfl, rfl⟩
    · exact ⟨(close_trade_frame _ _).1, (close_trade_frame _ _).2.1⟩
    · exact ⟨rfl, rfl⟩

theorem update_sl_windows (s : TradeTracker) (trade_id : String) :
    (update_trade_sl s trade_id).daily_trades = s.daily_trades ∧
    (update_trade_sl s trade_id).weekly_trades = s.weekly_trades := by
  unfold update_trade_sl
  cases dictLookup trade_id s.active_trades with
  | none => exact ⟨rfl, rfl⟩
  | some r => exact ⟨(close_trade_frame _ _).1, (close_trade_frame _ _).2.1⟩

/-- C6: resetting one window clears only that window's accumulator: the
other window's sequence, the active set, the closed set and the heap are
untouched, and the other window's snapshot is unchanged, so a weekly
snapshot taken after a daily reset still reflects trades created before
the reset (and symmetrically for a weekly reset). -/
theorem reset_window_clears_only_that_window (s : TradeTracker) :
    (reset_daily s).daily_trades = [] ∧
    (reset_daily s).weekly_trades = s.weekly_trades ∧
    (reset_daily s).active_trades = s.active_trades ∧
    (reset_daily s).closed_trades = s.closed_trades ∧
    (reset_daily s).store = s.store ∧
    get_weekly_stats (reset_daily s) = get_weekly_stats s ∧
    (reset_weekly s).weekly_trades = [] ∧
    (reset_weekly s).daily_trades = s.daily_trades ∧
    (reset_weekly s).active_trades = s.active_trades ∧
    (reset_weekly s).closed_trades = s.closed_trades ∧
    (reset_weekly s).store = s.store ∧
    get_daily_stats (reset_weekly s) = get_daily_stats s := by
  exact ⟨rfl, rfl, rfl, rfl, rfl, rfl, rfl, rfl, rfl, rfl, rfl, rfl⟩

/-- C7: createTrade appends one and the same heap reference to both window
sequences in the one call (and the reference resolves to the created
trade), and the lifecycle mutators never touch the window sequences — they
mutate the shared heap only — so both windows observe every lifecycle
update through the single shared record, without duplication. -/
theorem both_windows_share_created_record (s : TradeTracker) (t : Trade) :
    (add_trade s t).daily_trades = s.daily_trades ++ [s.store.length] ∧
    (add_trade s t).weekly_trades = s.weekly_trades ++ [s.store.length] ∧
    resolve (add_trade s t) s.store.length = t ∧
    (∀ trade_id level p,
      (update_trade_tp s trade_id level p).daily_trades = s.daily_trades ∧
      (update_trade_tp s trade_id level p).weekly_trades = s.weekly_trades) ∧
    (∀ trade_id,
      (update_trade_sl s trade_id).daily_trades = s.daily_trades ∧
      (update_trade_sl s trade_id).weekly_trades = s.weekly_trades) := by
  refine ⟨rfl, rfl, nthD_append_self s.store t, ?_, ?_⟩
  · intro trade_id level p
    exact update_tp_windows s trade_id level p
  · intro trade_id
    exact update_sl_windows s trade_id

/-- Concrete trade used in witnesses: id "A". -/
def tradeA : Trade := { dummyTrade with id := "A", symbol := "EURUSD", entry := 1 }

/-- Concrete trade used in witnesses: a second trade reusing id "A". -/
def tradeA2 : Trade := { dummyTrade with id := "A", symbol := "GBPUSD", entry := 2 }

/-- Concrete trade used in witnesses: id "B". -/
def tradeB : Trade := { dummyTrade with id := "B", symbol := "XAUUSD", entry := 3 }

/-- Concrete trade used in witnesses: id "C". -/
def tradeC : Trade := { dummyTrade with id := "C", symbol := "EURUSD", entry := 4 }

/-- Concrete trade used in witnesses: id "D". -/
def tradeD : Trade := { dummyTrade with id := "D", symbol := "BTCUSD", entry := 5 }

/-- C1 counterexample: createTrade with an id already active does not fail
and does not leave the tracker unchanged — with trade "A" active, adding a
second trade with id "A" changes the state: the active entry now resolves
to the new trade's fields and both windows grew by one reference. -/
theorem createTrade_duplicate_changes_state :
    add_trade (add_trade TradeTracker.init tradeA) tradeA2 ≠
      add_trade TradeTracker.init tradeA ∧
    dictLookup "A" (add_trade (add_trade TradeTracker.init tradeA) tradeA2).active_trades
      = some 1 ∧
    (resolve (add_trade (add_trade TradeTracker.init tradeA) tradeA2) 1).entry = 2 ∧
    (add_trade (add_trade TradeTracker.init tradeA) tradeA2).daily_trades = [0, 1] ∧
    (add_trade (add_trade TradeTracker.init tradeA) tradeA2).weekly_trades = [0, 1] := by
  refine ⟨?_, by decide, by decide, by decide, by decide⟩
  intro h
  have := congrArg (fun st => st.daily_trades.length) h
  simp [add_trade, TradeTracker.init] at this

/-- C1 (amended): createTrade with an id already present among the active
trades raises no error; it allocates the new trade, repoints the active
entry for that id at the new trade, and appends the new reference to both
window sequences (the closed set is untouched; the original trade object
stays in the heap and the window sequences but is no longer reachable from
the active set). -/
theorem add_trade_duplicate_overwrites (s : TradeTracker) (t : Trade) (r : Nat)
    (hr : dictLookup t.id s.active_trades = some r) (hlen : r < s.store.length) :
    dictLookup t.id (add_trade s t).active_trades = some s.store.length ∧
    resolve (add_trade s t) s.store.length = t ∧
    (add_trade s t).daily_trades = s.daily_trades ++ [s.store.length] ∧
    (add_trade s t).weekly_trades = s.weekly_trades ++ [s.store.length] ∧
    (add_trade s t).closed_trades = s.closed_trades ∧
    (add_trade s t).store = s.store ++ [t] ∧
    resolve (add_trade s t) r = resolve s r := by
  exact ⟨dictLookup_dictInsert_self t.id s.store.length s.active_trades,
    nthD_append_self s.store t, rfl, rfl, rfl, rfl, nthD_append_lt s.store [t] r hlen⟩

/-- C1 witness for the amended theorem, at a tracker where id "A" is
already active. -/
theorem add_trade_duplicate_overwrites_witness :
    (dictLookup "A" (add_trade TradeTracker.init tradeA).active_trades = some 0 ∧
      0 < (add_trade TradeTracker.init tradeA).store.length) ∧
    (dictLookup "A" (add_trade (add_trade TradeTracker.init tradeA) tradeA2).active_trades
        = some 1 ∧
      resolve (add_trade (add_trade TradeTracker.init tradeA) tradeA2) 1 = tradeA2 ∧
      (add_trade (add_trade TradeTracker.init tradeA) tradeA2).daily_trades =
        (add_trade TradeTracker.init tradeA).daily_trades ++ [1] ∧
      (add_trade (add_trade TradeTracker.init tradeA) tradeA2).weekly_trades =
        (add_trade TradeTracker.init tradeA).weekly_trades ++ [1] ∧
      (add_trade (add_trade TradeTracker.init tradeA) tradeA2).closed_trades =
        (add_trade TradeTracker.init tradeA).closed_trades ∧
      (add_trade (add_trade TradeTracker.init tradeA) tradeA2).store =
        (add_trade TradeTracker.init tradeA).store ++ [tradeA2] ∧
      resolve (add_trade (add_trade TradeTracker.init tradeA) tradeA2) 0 =
        resolve (add_trade TradeTracker.init tradeA) 0) :=
  ⟨⟨by decide, by decide⟩,
    add_trade_duplicate_overwrites (add_trade TradeTracker.init tradeA) tradeA2 0 (by decide)
      (by decide)⟩

/-- The field mutation of the TP1 branch (source lines 80-81). -/
def markTP1 (t : Trade) : Trade := { t with tp1_hit := true, profit_r := 3/2 }

/-- The field mutation of the TP2 branch (source lines 83-84). -/
def markTP2 (t : Trade) : Trade := { t with tp2_hit := true, profit_r := 5/2 }

/-- The field mutation of the TP3 branch (source lines 86-89). -/
def markTP3 (t : Trade) : Trade :=
  { t with tp3_hit := true, final_result := "TP3", profit_r := 4, closed := true }

/-- The field mutation of the SL path (source lines 98-101). -/
def markSL (t : Trade) : Trade :=
  { t with sl_hit := true, final_result := "SL", profit_r := -1, closed := true }

theorem update_tp_absent (s : TradeTracker) (trade_id level : String) (p : Rat)
    (hr : dictLookup trade_id s.active_trades = none) :
    update_trade_tp s trade_id level p = s := by
  simp [update_trade_tp, hr]

theorem update_sl_absent (s : TradeTracker) (trade_id : String)
    (hr : dictLookup trade_id s.active_trades = none) :
    update_trade_sl s trade_id = s := by
  simp [update_trade_sl, hr]

theorem update_tp1_eq (s : TradeTracker) (trade_id : String) (p : Rat) (r : Nat)
    (hr : dictLookup trade_id s.active_trades = some r) :
    update_trade_tp s trade_id "TP1" p =
      { s with store := s.store.set r (markTP1 (resolve s r)) } := by
  simp [update_trade_tp, markTP1, hr]

theorem update_tp2_eq (s : TradeTracker) (trade_id : String) (p : Rat) (r : Nat)
    (hr : dictLookup trade_id s.active_trades = some r) :
    update_trade_tp s trade_id "TP2" p =
      { s with store := s.store.set r (markTP2 (resolve s r)) } := by
  simp [update_trade_tp, markTP2, hr]

theorem update_tp3_eq (s : TradeTracker) (trade_id : String) (p : Rat) (r : Nat)
    (hr : dictLookup trade_id s.active_trades = some r) :
    update_trade_tp s trade_id "TP3" p =
      { s with
        store := s.store.set r (markTP3 (resolve s r))
        active_trades := dictRemove trade_id s.active_trades
        closed_trades := s.closed_trades ++ [r] } := by
  simp [update_trade_tp, close_trade, markTP3, hr]

theorem update_tp_other (s : TradeTracker) (trade_id level : String) (p : Rat) (r : Nat)
    (hr : dictLookup trade_id s.active_trades = some r)
    (h1 : level ≠ "TP1") (h2 : level ≠ "TP2") (h3 : level ≠ "TP3") :
    update_trade_tp s trade_id level p = s := by
  simp [update_trade_tp, hr, h1, h2, h3]

theorem update_sl_eq (s : TradeTracker) (trade_id : String) (r : Nat)
    (hr : dictLookup trade_id s.active_trades = some r) :
    update_trade_sl s trade_id =
      { s with
        store := s.store.set r (markSL (resolve s r))
        active_trades := dictRemove trade_id s.active_trades
        closed_trades := s.closed_trades ++ [r] } := by
  simp only [update_trade_sl, hr]
  simp [close_trade, markSL, hr]

/-- C10: on an active trade, applyTakeProfit overwrites `profit_r`
unconditionally with the fixed value of the level just applied (1.5 for
TP1, 2.5 for TP2), leaving the hit flags of the other levels and the
closed flag as they were — so applying TP1 to a trade whose `tp2_hit` flag
is already set lowers `profit_r` from 2.5 back to 1.5, and `profit_r`
reflects the most recently applied event, not the highest level reached. -/
theorem tp_overwrites_profit_r (s : TradeTracker) (trade_id : String) (r : Nat) (p : Rat)
    (hr : dictLookup trade_id s.active_trades = some r)
    (hlen : r < s.store.length) :
    (resolve (update_trade_tp s trade_id "TP1" p) r).profit_r = 3/2 ∧
    (resolve (update_trade_tp s trade_id "TP1" p) r).tp1_hit = true ∧
    (resolve (update_trade_tp s trade_id "TP1" p) r).tp2_hit = (resolve s r).tp2_hit ∧
    (resolve (update_trade_tp s trade_id "TP1" p) r).closed = (resolve s r).closed ∧
    (resolve (update_trade_tp s trade_id "TP2" p) r).profit_r = 5/2 ∧
    (resolve (update_trade_tp s trade_id "TP2" p) r).tp2_hit = true ∧
    (resolve (update_trade_tp s trade_id "TP2" p) r).tp1_hit = (resolve s r).tp1_hit := by
  rw [update_tp1_eq s trade_id p r hr, update_tp2_eq s trade_id p r hr]
  have e1 : resolve { s with store := s.store.set r (markTP1 (resolve s r)) } r
      = markTP1 (resolve s r) := nthD_set_self s.store r _ hlen
  have e2 : resolve { s with store := s.store.set r (markTP2 (resolve s r)) } r
      = markTP2 (resolve s r) := nthD_set_self s.store r _ hlen
  rw [e1, e2]
  exact ⟨rfl, rfl, rfl, rfl, rfl, rfl, rfl⟩

/-- C10 witness: with trade "A" active and TP2 already applied, applying
TP1 lowers `profit_r` to 1.5 (the preconditions are checked on the
concrete state; the conclusion instantiates the theorem there). -/
theorem tp_overwrites_profit_r_witness :
    (dictLookup "A"
        (update_trade_tp (add_trade TradeTracker.init tradeA) "A" "TP2" 0).active_trades
          = some 0 ∧
      0 < (update_trade_tp (add_trade TradeTracker.init tradeA) "A" "TP2" 0).store.length ∧
      (resolve (update_trade_tp (add_trade TradeTracker.init tradeA) "A" "TP2" 0) 0).tp2_hit
        = true) ∧
    ((resolve (update_trade_tp
        (update_trade_tp (add_trade TradeTracker.init tradeA) "A" "TP2" 0) "A" "TP1" 0) 0).profit_r
        = 3/2 ∧
      (resolve (update_trade_tp
        (update_trade_tp (add_trade TradeTracker.init tradeA) "A" "TP2" 0) "A" "TP1" 0) 0).tp1_hit
        = true ∧
      (resolve (update_trade_tp
        (update_trade_tp (add_trade TradeTracker.init tradeA) "A" "TP2" 0) "A" "TP1" 0) 0).tp2_hit
        = (resolve (update_trade_tp (add_trade TradeTracker.init tradeA) "A" "TP2" 0) 0).tp2_hit ∧
      (resolve (update_trade_tp
        (update_trade_tp (add_trade TradeTracker.init tradeA) "A" "TP2" 0) "A" "TP1" 0) 0).closed
        = (resolve (update_trade_tp (add_trade TradeTracker.init tradeA) "A" "TP2" 0) 0).closed ∧
      (resolve (update_trade_tp
        (update_trade_tp (add_trade TradeTracker.init tradeA) "A" "TP2" 0) "A" "TP2" 0) 0).profit_r
        = 5/2 ∧
      (resolve (update_trade_tp
        (update_trade_tp (add_trade TradeTracker.init tradeA) "A" "TP2" 0) "A" "TP2" 0) 0).tp2_hit
        = true ∧
      (resolve (update_trade_tp
        (update_trade_tp (add_trade TradeTracker.init tradeA) "A" "TP2" 0) "A" "TP2" 0) 0).tp1_hit
        = (resolve (update_trade_tp (add_trade TradeTracker.init tradeA) "A" "TP2" 0) 0).tp1_hit) :=
  ⟨⟨by decide, by decide, by decide⟩,
    tp_overwrites_profit_r (update_trade_tp (add_trade TradeTracker.init tradeA) "A" "TP2" 0)
      "A" 0 0 (by decide) (by decide)⟩

/-- C3: applyStopLoss on an active trade closes it with
`final_result = "SL"` and `profit_r = -1.0`, moves it from the active set
to the closed set, and does so regardless of previously recorded TP1/TP2
hits — their flags are preserved but the partial gains are not netted into
`profit_r` (the id-uniqueness hypothesis is the Python dict key invariant;
the bound hypothesis is validity of the heap reference). -/
theorem sl_closes_with_minus_one (s : TradeTracker) (trade_id : String) (r : Nat)
    (hr : dictLookup trade_id s.active_trades = some r)
    (hlen : r < s.store.length)
    (hkeys : (s.active_trades.map Prod.fst).Nodup) :
    (resolve (update_trade_sl s trade_id) r).final_result = "SL" ∧
    (resolve (update_trade_sl s trade_id) r).profit_r = -1 ∧
    (resolve (update_trade_sl s trade_id) r).closed = true ∧
    (resolve (update_trade_sl s trade_id) r).sl_hit = true ∧
    (resolve (update_trade_sl s trade_id) r).tp1_hit = (resolve s r).tp1_hit ∧
    (resolve (update_trade_sl s trade_id) r).tp2_hit = (resolve s r).tp2_hit ∧
    dictLookup trade_id (update_trade_sl s trade_id).active_trades = none ∧
    (update_trade_sl s trade_id).closed_trades = s.closed_trades ++ [r] := by
  rw [update_sl_eq s trade_id r hr]
  have e : resolve
      { s with
        store := s.store.set r (markSL (resolve s r))
        active_trades := dictRemove trade_id s.active_trades
        closed_trades := s.closed_trades ++ [r] } r
      = markSL (resolve s r) := nthD_set_self s.store r _ hlen
  rw [e]
  exact ⟨rfl, rfl, rfl, rfl, rfl, rfl,
    dictLookup_dictRemove_self trade_id s.active_trades hkeys, rfl⟩

/-- C3 witness: trade "A" with TP1 and TP2 already applied is stopped out;
the theorem is instantiated on that concrete state. -/
theorem sl_closes_with_minus_one_witness :
    (dictLookup "A"
        (update_trade_tp (update_trade_tp (add_trade TradeTracker.init tradeA) "A" "TP1" 0)
          "A" "TP2" 0).active_trades = some 0 ∧
      0 < (update_trade_tp (update_trade_tp (add_trade TradeTracker.init tradeA) "A" "TP1" 0)
          "A" "TP2" 0).store.length ∧
      ((update_trade_tp (update_trade_tp (add_trade TradeTracker.init tradeA) "A" "TP1" 0)
          "A" "TP2" 0).active_trades.map Prod.fst).Nodup ∧
      (resolve (update_trade_tp (update_trade_tp (add_trade TradeTracker.init tradeA)
          "A" "TP1" 0) "A" "TP2" 0) 0).tp1_hit = true ∧
      (resolve (update_trade_tp (update_trade_tp (add_trade TradeTracker.init tradeA)
          "A" "TP1" 0) "A" "TP2" 0) 0).tp2_hit = true) ∧
    ((resolve (update_trade_sl (update_trade_tp (update_trade_tp
          (add_trade TradeTracker.init tradeA) "A" "TP1" 0) "A" "TP2" 0) "A") 0).final_result
        = "SL" ∧
      (resolve (update_trade_sl (update_trade_tp (update_trade_tp
          (add_trade TradeTracker.init tradeA) "A" "TP1" 0) "A" "TP2" 0) "A") 0).profit_r
        = -1 ∧
      (resolve (update_trade_sl (update_trade_tp (update_trade_tp
          (add_trade TradeTracker.init tradeA) "A" "TP1" 0) "A" "TP2" 0) "A") 0).closed
        = true ∧
      (resolve (update_trade_sl (update_trade_tp (update_trade_tp
          (add_trade TradeTracker.init tradeA) "A" "TP1" 0) "A" "TP2" 0) "A") 0).sl_hit
        = true ∧
      (resolve (update_trade_sl (update_trade_tp (update_trade_tp
          (add_trade TradeTracker.init tradeA) "A" "TP1" 0) "A" "TP2" 0) "A") 0).tp1_hit
        = (resolve (update_trade_tp (update_trade_tp (add_trade TradeTracker.init tradeA)
            "A" "TP1" 0) "A" "TP2" 0) 0).tp1_hit ∧
      (resolve (update_trade_sl (update_trade_tp (update_trade_tp
          (add_trade TradeTracker.init tradeA) "A" "TP1" 0) "A" "TP2" 0) "A") 0).tp2_hit
        = (resolve (update_trade_tp (update_trade_tp (add_trade TradeTracker.init tradeA)
            "A" "TP1" 0) "A" "TP2" 0) 0).tp2_hit ∧
      dictLookup "A" (update_trade_sl (update_trade_tp (update_trade_tp
          (add_trade TradeTracker.init tradeA) "A" "TP1" 0) "A" "TP2" 0) "A").active_trades
        = none ∧
      (update_trade_sl (update_trade_tp (update_trade_tp
          (add_trade TradeTracker.init tradeA) "A" "TP1" 0) "A" "TP2" 0) "A").closed_trades
        = (update_trade_tp (update_trade_tp (add_trade TradeTracker.init tradeA)
            "A" "TP1" 0) "A" "TP2" 0).closed_trades ++ [0]) :=
  ⟨⟨by decide, by decide, by decide, by decide, by decide⟩,
    sl_closes_with_minus_one
      (update_trade_tp (update_trade_tp (add_trade TradeTracker.init tradeA) "A" "TP1" 0)
        "A" "TP2" 0) "A" 0 (by decide) (by decide) (by decide)⟩

/-- C2: applyTakeProfit level 3 on an active trade (after any prior TP1/TP2
applications, since the state `s` is arbitrary) closes it with
`final_result = "TP3"` and `profit_r = 4.0`, removes the id from the
active set and appends the trade's reference to the closed set, and every
subsequent applyTakeProfit or applyStopLoss call with the same id leaves
the state untouched. -/
theorem tp3_closes_with_four (s : TradeTracker) (trade_id : String) (r : Nat) (p : Rat)
    (hr : dictLookup trade_id s.active_trades = some r)
    (hlen : r < s.store.length)
    (hkeys : (s.active_trades.map Prod.fst).Nodup) :
    (resolve (update_trade_tp s trade_id "TP3" p) r).final_result = "TP3" ∧
    (resolve (update_trade_tp s trade_id "TP3" p) r).profit_r = 4 ∧
    (resolve (update_trade_tp s trade_id "TP3" p) r).closed = true ∧
    (resolve (update_trade_tp s trade_id "TP3" p) r).tp3_hit = true ∧
    dictLookup trade_id (update_trade_tp s trade_id "TP3" p).active_trades = none ∧
    (update_trade_tp s trade_id "TP3" p).closed_trades = s.closed_trades ++ [r] ∧
    (∀ level q, update_trade_tp (update_trade_tp s trade_id "TP3" p) trade_id level q
      = update_trade_tp s trade_id "TP3" p) ∧
    update_trade_sl (update_trade_tp s trade_id "TP3" p) trade_id
      = update_trade_tp s trade_id "TP3" p := by
  have habs : dictLookup trade_id (update_trade_tp s trade_id "TP3" p).active_trades
      = none := by
    rw [update_tp3_eq s trade_id p r hr]
    exact dictLookup_dictRemove_self trade_id s.active_trades hkeys
  refine ⟨?_, ?_, ?_, ?_, habs, ?_, fun level q => update_tp_absent _ _ _ _ habs,
    update_sl_absent _ _ habs⟩
  all_goals rw [update_tp3_eq s trade_id p r hr]
  · exact congrArg Trade.final_result (nthD_set_self s.store r _ hlen)
  · exact congrArg Trade.profit_r (nthD_set_self s.store r _ hlen)
  · exact congrArg Trade.closed (nthD_set_self s.store r _ hlen)
  · exact congrArg Trade.tp3_hit (nthD_set_self s.store r _ hlen)

/-- C2 witness: trade "A" receives TP1, then TP2, then TP3 on the concrete
tracker; the theorem is instantiated at that state. -/
theorem tp3_closes_with_four_witness :
    (dictLookup "A"
        (update_trade_tp (update_trade_tp (add_trade TradeTracker.init tradeA) "A" "TP1" 0)
          "A" "TP2" 0).active_trades = some 0 ∧
      0 < (update_trade_tp (update_trade_tp (add_trade TradeTracker.init tradeA) "A" "TP1" 0)
          "A" "TP2" 0).store.length ∧
      ((update_trade_tp (update_trade_tp (add_trade TradeTracker.init tradeA) "A" "TP1" 0)
          "A" "TP2" 0).active_trades.map Prod.fst).Nodup) ∧
    ((resolve (update_trade_tp (update_trade_tp (update_trade_tp
          (add_trade TradeTracker.init tradeA) "A" "TP1" 0) "A" "TP2" 0) "A" "TP3" 0) 0).final_result
        = "TP3" ∧
      (resolve (update_trade_tp (update_trade_tp (update_trade_tp
          (add_trade TradeTracker.init tradeA) "A" "TP1" 0) "A" "TP2" 0) "A" "TP3" 0) 0).profit_r
        = 4 ∧
      (resolve (update_trade_tp (update_trade_tp (update_trade_tp
          (add_trade TradeTracker.init tradeA) "A" "TP1" 0) "A" "TP2" 0) "A" "TP3" 0) 0).closed
        = true ∧
      (resolve (update_trade_tp (update_trade_tp (update_trade_tp
          (add_trade TradeTracker.init tradeA) "A" "TP1" 0) "A" "TP2" 0) "A" "TP3" 0) 0).tp3_hit
        = true ∧
      dictLookup "A" (update_trade_tp (update_trade_tp (update_trade_tp
          (add_trade TradeTracker.init tradeA) "A" "TP1" 0) "A" "TP2" 0) "A" "TP3" 0).active_trades
        = none ∧
      (update_trade_tp (update_trade_tp (update_trade_tp
          (add_trade TradeTracker.init tradeA) "A" "TP1" 0) "A" "TP2" 0) "A" "TP3" 0).closed_trades
        = (update_trade_tp (update_trade_tp (add_trade TradeTracker.init tradeA) "A" "TP1" 0)
            "A" "TP2" 0).closed_trades ++ [0] ∧
      (∀ level q, update_trade_tp (update_trade_tp (update_trade_tp (update_trade_tp
            (add_trade TradeTracker.init tradeA) "A" "TP1" 0) "A" "TP2" 0) "A" "TP3" 0)
            "A" level q
        = update_trade_tp (update_trade_tp (update_trade_tp
            (add_trade TradeTracker.init tradeA) "A" "TP1" 0) "A" "TP2" 0) "A" "TP3" 0) ∧
      update_trade_sl (update_trade_tp (update_trade_tp (update_trade_tp
          (add_trade TradeTracker.init tradeA) "A" "TP1" 0) "A" "TP2" 0) "A" "TP3" 0) "A"
        = update_trade_tp (update_trade_tp (update_trade_tp
            (add_trade TradeTracker.init tradeA) "A" "TP1" 0) "A" "TP2" 0) "A" "TP3" 0) :=
  ⟨⟨by decide, by decide, by decide⟩,
    tp3_closes_with_four
      (update_trade_tp (update_trade_tp (add_trade TradeTracker.init tradeA) "A" "TP1" 0)
        "A" "TP2" 0) "A" 0 0 (by decide) (by decide) (by decide)⟩

/-- C4: applyTakeProfit and applyStopLoss on an id absent from the active
set (unknown or already closed) are silent no-ops leaving the entire
tracker state unchanged, and applying the same TP level twice in a row
leaves the state equal to applying it once (idempotent update; the
hypothesis is the Python dict key-uniqueness invariant). -/
theorem absent_noop_and_tp_idempotent (s : TradeTracker) (trade_id : String)
    (hkeys : (s.active_trades.map Prod.fst).Nodup) :
    (dictLookup trade_id s.active_trades = none →
      (∀ level p, update_trade_tp s trade_id level p = s) ∧
      update_trade_sl s trade_id = s) ∧
    (∀ level p, update_trade_tp (update_trade_tp s trade_id level p) trade_id level p
      = update_trade_tp s trade_id level p) := by
  constructor
  · intro habs
    exact ⟨fun level p => update_tp_absent s trade_id level p habs,
      update_sl_absent s trade_id habs⟩
  · intro level p
    cases hl : dictLookup trade_id s.active_trades with
    | none =>
      rw [update_tp_absent s trade_id level p hl, update_tp_absent s trade_id level p hl]
    | some r =>
      by_cases h1 : level = "TP1"
      · subst h1
        rw [update_tp1_eq s trade_id p r hl]
        by_cases hlen : r < s.store.length
        · have hl2 : dictLookup trade_id
              ({ s with store := s.store.set r (markTP1 (resolve s r)) }
                : TradeTracker).active_trades = some r := hl
          rw [update_tp1_eq _ trade_id p r hl2]
          have e1 : resolve { s with store := s.store.set r (markTP1 (resolve s r)) } r
              = markTP1 (resolve s r) := nthD_set_self s.store r _ hlen
          rw [e1]
          have hm : markTP1 (markTP1 (resolve s r)) = markTP1 (resolve s r) := rfl
          rw [hm]
          show ({ s with store :=
              (s.store.set r (markTP1 (resolve s r))).set r (markTP1 (resolve s r)) }
            : TradeTracker) = { s with store := s.store.set r (markTP1 (resolve s r)) }
          rw [List.set_set]
        · have hse : s.store.set r (markTP1 (resolve s r)) = s.store :=
            set_of_length_le s.store r _ (Nat.le_of_not_lt hlen)
          rw [hse]
          show update_trade_tp s trade_id "TP1" p = s
          rw [update_tp1_eq s trade_id p r hl, hse]
      · by_cases h2 : level = "TP2"
        · subst h2
          rw [update_tp2_eq s trade_id p r hl]
          by_cases hlen : r < s.store.length
          · have hl2 : dictLookup trade_id
                ({ s with store := s.store.set r (markTP2 (resolve s r)) }
                  : TradeTracker).active_trades = some r := hl
            rw [update_tp2_eq _ trade_id p r hl2]
            have e1 : resolve { s with store := s.store.set r (markTP2 (resolve s r)) } r
                = markTP2 (resolve s r) := nthD_set_self s.store r _ hlen
            rw [e1]
            have hm : markTP2 (markTP2 (resolve s r)) = markTP2 (resolve s r) := rfl
            rw [hm]
            show ({ s with store :=
                (s.store.set r (markTP2 (resolve s r))).set r (markTP2 (resolve s r)) }
              : TradeTracker) = { s with store := s.store.set r (markTP2 (resolve s r)) }
            rw [List.set_set]
          · have hse : s.store.set r (markTP2 (resolve s r)) = s.store :=
              set_of_length_le s.store r _ (Nat.le_of_not_lt hlen)
            rw [hse]
            show update_trade_tp s trade_id "TP2" p = s
            rw [update_tp2_eq s trade_id p r hl, hse]
        · by_cases h3 : level = "TP3"
          · subst h3
            have habs : dictLookup trade_id
                (update_trade_tp s trade_id "TP3" p).active_trades = none := by
              rw [update_tp3_eq s trade_id p r hl]
              exact dictLookup_dictRemove_self trade_id s.active_trades hkeys
            exact update_tp_absent _ _ _ _ habs
          · rw [update_tp_other s trade_id level p r hl h1 h2 h3,
              update_tp_other s trade_id level p r hl h1 h2 h3]

/-- C4 witness: on the concrete tracker holding only trade "A", updates for
the unknown id "Z" are no-ops and repeated TP updates are idempotent. -/
theorem absent_noop_and_tp_idempotent_witness :
    ((add_trade TradeTracker.init tradeA).active_trades.map Prod.fst).Nodup ∧
    ((dictLookup "Z" (add_trade TradeTracker.init tradeA).active_trades = none →
        (∀ level p, update_trade_tp (add_trade TradeTracker.init tradeA) "Z" level p
          = add_trade TradeTracker.init tradeA) ∧
        update_trade_sl (add_trade TradeTracker.init tradeA) "Z"
          = add_trade TradeTracker.init tradeA) ∧
      (∀ level p, update_trade_tp
          (update_trade_tp (add_trade TradeTracker.init tradeA) "Z" level p) "Z" level p
        = update_trade_tp (add_trade TradeTracker.init tradeA) "Z" level p)) :=
  ⟨by decide, absent_noop_and_tp_idempotent (add_trade TradeTracker.init tradeA) "Z" (by decide)⟩

/-- The daily snapshot as the (amended) claim describes it, computed from
the window's resolved trade sequence with the spec's formulas: empty
window distinguished as `none`; nonempty window with no closed trade gives
the reduced record (total, closed 0, active = total, and nothing else);
otherwise per-outcome counts over closed trades by final result, wins,
win rate `wins / closed * 100`, total R and average R. -/
def claimedDailySnapshot (ts : List Trade) : Option DailyStats :=
  if ts = [] then none
  else if ts.filter (fun t => t.closed) = [] then
    some (.noneClosed ts.length 0 ts.length)
  else
    some (.full ts.length (ts.filter (fun t => t.closed)).length
      (ts.length - (ts.filter (fun t => t.closed)).length)
      ((ts.filter (fun t => t.closed)).countP (fun t => t.final_result == "TP3"))
      ((ts.filter (fun t => t.closed)).countP (fun t => t.final_result == "TP2"))
      ((ts.filter (fun t => t.closed)).countP (fun t => t.final_result == "TP1"))
      ((ts.filter (fun t => t.closed)).countP (fun t => t.final_result == "SL"))
      (((ts.filter (fun t => t.closed)).countP (fun t => t.final_result == "TP3"))
        + ((ts.filter (fun t => t.closed)).countP (fun t => t.final_result == "TP2"))
        + ((ts.filter (fun t => t.closed)).countP (fun t => t.final_result == "TP1")))
      ((ts.filter (fun t => t.closed)).countP (fun t => t.final_result == "SL"))
      (((((ts.filter (fun t => t.closed)).countP (fun t => t.final_result == "TP3"))
          + ((ts.filter (fun t => t.closed)).countP (fun t => t.final_result == "TP2"))
          + ((ts.filter (fun t => t.closed)).countP (fun t => t.final_result == "TP1")) : Nat)
        : Rat) / ((ts.filter (fun t => t.closed)).length : Rat) * 100)
      (((ts.filter (fun t => t.closed)).map (fun t => t.profit_r)).sum)
      ((((ts.filter (fun t => t.closed)).map (fun t => t.profit_r)).sum)
        / ((ts.filter (fun t => t.closed)).length : Rat))
      ts)

/-- The weekly snapshot as the (amended) claim describes it: the daily
formulas plus the per-symbol win/loss/R breakdown over closed trades. -/
def claimedWeeklySnapshot (ts : List Trade) : Option WeeklyStats :=
  if ts = [] then none
  else if ts.filter (fun t => t.closed) = [] then
    some (.noneClosed ts.length 0 ts.length)
  else
    some (.full ts.length (ts.filter (fun t => t.closed)).length
      (ts.length - (ts.filter (fun t => t.closed)).length)
      ((ts.filter (fun t => t.closed)).countP (fun t => t.final_result == "TP3"))
      ((ts.filter (fun t => t.closed)).countP (fun t => t.final_result == "TP2"))
      ((ts.filter (fun t => t.closed)).countP (fun t => t.final_result == "TP1"))
      ((ts.filter (fun t => t.closed)).countP (fun t => t.final_result == "SL"))
      (((ts.filter (fun t => t.closed)).countP (fun t => t.final_result == "TP3"))
        + ((ts.filter (fun t => t.closed)).countP (fun t => t.final_result == "TP2"))
        + ((ts.filter (fun t => t.closed)).countP (fun t => t.final_result == "TP1")))
      ((ts.filter (fun t => t.closed)).countP (fun t => t.final_result == "SL"))
      (((((ts.filter (fun t => t.closed)).countP (fun t => t.final_result == "TP3"))
          + ((ts.filter (fun t => t.closed)).countP (fun t => t.final_result == "TP2"))
          + ((ts.filter (fun t => t.closed)).countP (fun t => t.final_result == "TP1")) : Nat)
        : Rat) / ((ts.filter (fun t => t.closed)).length : Rat) * 100)
      (((ts.filter (fun t => t.closed)).map (fun t => t.profit_r)).sum)
      ((((ts.filter (fun t => t.closed)).map (fun t => t.profit_r)).sum)
        / ((ts.filter (fun t => t.closed)).length : Rat))
      (bySymbolOf (ts.filter (fun t => t.closed)))
      ts)

theorem daily_stats_eq_claimed (s : TradeTracker) :
    get_daily_stats s = claimedDailySnapshot (s.daily_trades.map (resolve s)) := by
  unfold get_daily_stats claimedDailySnapshot
  by_cases h0 : s.daily_trades = []
  · simp [h0]
  · have h0b : s.daily_trades.isEmpty = false := by
      rw [Bool.eq_false_iff]
      intro hh
      exact h0 (List.isEmpty_iff.mp hh)
    have hm : s.daily_trades.map (resolve s) ≠ [] := by
      simpa using h0
    simp only [h0b, Bool.false_eq_true, if_false, if_neg hm]
    by_cases hc : (s.daily_trades.map (resolve s)).filter (fun t => t.closed) = []
    · simp [hc]
    · have hcb : ((s.daily_trades.map (resolve s)).filter (fun t => t.closed)).isEmpty
          = false := by
        rw [Bool.eq_false_iff]
        intro hh
        exact hc (List.isEmpty_iff.mp hh)
      simp [hcb, hc, List.countP_eq_length_filter]

theorem weekly_stats_eq_claimed (s : TradeTracker) :
    get_weekly_stats s = claimedWeeklySnapshot (s.weekly_trades.map (resolve s)) := by
  unfold get_weekly_stats claimedWeeklySnapshot
  by_cases h0 : s.weekly_trades = []
  · simp [h0]
  · have h0b : s.weekly_trades.isEmpty = false := by
      rw [Bool.eq_false_iff]
      intro hh
      exact h0 (List.isEmpty_iff.mp hh)
    have hm : s.weekly_trades.map (resolve s) ≠ [] := by
      simpa using h0
    simp only [h0b, Bool.false_eq_true, if_false, if_neg hm]
    by_cases hc : (s.weekly_trades.map (resolve s)).filter (fun t => t.closed) = []
    · simp [hc]
    · have hcb : ((s.weekly_trades.map (resolve s)).filter (fun t => t.closed)).isEmpty
          = false := by
        rw [Bool.eq_false_iff]
        intro hh
        exact hc (List.isEmpty_iff.mp hh)
      simp [hcb, hc, List.countP_eq_length_filter]

/-- C5 counterexample: on a nonempty window with no closed trades (one
active trade), the snapshot is the reduced three-field record and reports
no win rate at all — it is not the full record with win rate 0 that the
claim's parenthetical describes. -/
theorem snapshot_without_closed_reports_no_win_rate :
    get_daily_stats (add_trade TradeTracker.init tradeA)
      = some (.noneClosed 1 0 1) ∧
    (get_daily_stats (add_trade TradeTracker.init tradeA)).map DailyStats.isFull
      = some false ∧
    (get_daily_stats (add_trade TradeTracker.init tradeA)).bind DailyStats.winRate
      = none := by
  refine ⟨by decide, by decide, by decide⟩

/-- C5 (amended): for every window sequence the snapshot is the empty
distinguished `none` when the sequence is empty; when the sequence is
nonempty but no trade in it is closed, it reports only total signals,
closed count 0 and active count = total (no win rate, outcome counts or R
totals); otherwise it reports total = sequence length, closed count,
active = total − closed, per-outcome counts over closed trades by final
result label only, wins = TP1+TP2+TP3 finals, win rate = wins / closed ×
100, total R = sum of `profit_r` over closed trades and average R = total
R / closed count — so 3 closed trades with 2 wins and 1 loss give a win
rate within 0.1 of 66.7. -/
theorem snapshot_reports_spec_formulas (s : TradeTracker) :
    get_daily_stats s = claimedDailySnapshot (s.daily_trades.map (resolve s)) ∧
    get_weekly_stats s = claimedWeeklySnapshot (s.weekly_trades.map (resolve s)) ∧
    (∀ c, c = (s.daily_trades.map (resolve s)).filter (fun t => t.closed) →
      c.length = 3 →
      c.countP (fun t => t.final_result == "TP3")
        + c.countP (fun t => t.final_result == "TP2")
        + c.countP (fun t => t.final_result == "TP1") = 2 →
      ∃ wr, (get_daily_stats s).bind DailyStats.winRate = some wr ∧
        |wr - 667/10| ≤ 1/10) := by
  refine ⟨daily_stats_eq_claimed s, weekly_stats_eq_claimed s, ?_⟩
  intro c hc h3 h2
  have hcne : c ≠ [] := by
    intro h
    rw [h] at h3
    simp at h3
  have hts : s.daily_trades.map (resolve s) ≠ [] := by
    intro h
    rw [h] at hc
    simp at hc
    exact hcne hc
  rw [daily_stats_eq_claimed s]
  unfold claimedDailySnapshot
  rw [if_neg hts, ← hc, if_neg hcne]
  refine ⟨_, rfl, ?_⟩
  rw [h2, h3]
  rw [abs_sub_le_iff]
  constructor <;> norm_num

/-- Concrete tracker for the C5 witness: four trades, "A" and "B" closed at
TP3, "C" stopped out, "D" still active. -/
def sWitness : TradeTracker :=
  update_trade_sl
    (update_trade_tp
      (update_trade_tp
        (add_trade (add_trade (add_trade (add_trade TradeTracker.init tradeA) tradeB)
          tradeC) tradeD)
        "A" "TP3" 0)
      "B" "TP3" 0)
    "C"

/-- C5 witness: on the concrete tracker with 3 closed trades (2 wins, 1
loss), the theorem yields a reported win rate within 0.1 of 66.7. -/
theorem snapshot_reports_spec_formulas_witness :
    (((sWitness.daily_trades.map (resolve sWitness)).filter (fun t => t.closed)).length = 3 ∧
      ((sWitness.daily_trades.map (resolve sWitness)).filter
          (fun t => t.closed)).countP (fun t => t.final_result == "TP3")
        + ((sWitness.daily_trades.map (resolve sWitness)).filter
            (fun t => t.closed)).countP (fun t => t.final_result == "TP2")
        + ((sWitness.daily_trades.map (resolve sWitness)).filter
            (fun t => t.closed)).countP (fun t => t.final_result == "TP1") = 2) ∧
    (∃ wr, (get_daily_stats sWitness).bind DailyStats.winRate = some wr ∧
      |wr - 667/10| ≤ 1/10) :=
  ⟨⟨by decide, by decide⟩,
    (snapshot_reports_spec_formulas sWitness).2.2 _ rfl (by decide) (by decide)⟩

/-- Reachable tracker states: the empty tracker closed under the four
operations; created trades carry the dataclass's fresh lifecycle defaults
(`closed = False`, `final_result = "ACTIVE"`), exactly as the trades built
by `process_webhook` (lines 675-697) do. -/
inductive Reach : TradeTracker → Prop where
  | init : Reach TradeTracker.init
  | create (s : TradeTracker) (t : Trade) (hs : Reach s)
      (ht : t.closed = false ∧ t.final_result = "ACTIVE") : Reach (add_trade s t)
  | tp (s : TradeTracker) (trade_id level : String) (p : Rat) (hs : Reach s) :
      Reach (update_trade_tp s trade_id level p)
  | sl (s : TradeTracker) (trade_id : String) (hs : Reach s) :
      Reach (update_trade_sl s trade_id)
  | resetD (s : TradeTracker) (hs : Reach s) : Reach (reset_daily s)
  | resetW (s : TradeTracker) (hs : Reach s) : Reach (reset_weekly s)

/-- The tracker invariant maintained by every operation: each heap trade is
either still ACTIVE and not closed, or terminally closed at TP3 (profit 4)
or SL (profit −1); active references are valid, point at non-closed
trades, and are pairwise distinct; closed references are valid and point
at closed trades. -/
def TrackerInv (s : TradeTracker) : Prop :=
  (∀ t ∈ s.store,
    (t.closed = false ∧ t.final_result = "ACTIVE") ∨
    (t.closed = true ∧ t.final_result = "TP3" ∧ t.profit_r = 4) ∨
    (t.closed = true ∧ t.final_result = "SL" ∧ t.profit_r = -1)) ∧
  (∀ q ∈ s.active_trades, q.2 < s.store.length ∧ (resolve s q.2).closed = false) ∧
  (s.active_trades.map Prod.snd).Nodup ∧
  (∀ r ∈ s.closed_trades, r < s.store.length ∧ (resolve s r).closed = true)

theorem inv_init : TrackerInv TradeTracker.init := by
  refine ⟨?_, ?_, ?_, ?_⟩ <;> simp [TradeTracker.init, TrackerInv]

theorem inv_add {s : TradeTracker} (h : TrackerInv s) (t : Trade)
    (ht : t.closed = false ∧ t.final_result = "ACTIVE") : TrackerInv (add_trade s t) := by
  obtain ⟨h1, h2, h3, h4⟩ := h
  refine ⟨?_, ?_, ?_, ?_⟩
  · intro u hu
    rcases List.mem_append.mp hu with hu | hu
    · exact h1 u hu
    · have hu' : u = t := by simpa using hu
      subst hu'
      exact Or.inl ht
  · intro q hq
    rcases mem_dictInsert hq with hq | hq
    · subst hq
      constructor
      · show s.store.length < (s.store ++ [t]).length
        simp
      · show (nthD (s.store ++ [t]) s.store.length).closed = false
        rw [nthD_append_self s.store t]
        exact ht.1
    · obtain ⟨hlt, hcl⟩ := h2 q hq
      constructor
      · show q.2 < (s.store ++ [t]).length
        simp
        omega
      · show (nthD (s.store ++ [t]) q.2).closed = false
        rw [nthD_append_lt s.store [t] q.2 hlt]
        exact hcl
  · apply nodup_snd_dictInsert h3
    intro hmem
    obtain ⟨q, hq, hq2⟩ := List.mem_map.mp hmem
    have := (h2 q hq).1
    omega
  · intro r hr
    obtain ⟨hlt, hcl⟩ := h4 r hr
    constructor
    · show r < (s.store ++ [t]).length
      simp
      omega
    · show (nthD (s.store ++ [t]) r).closed = true
      rw [nthD_append_lt s.store [t] r hlt]
      exact hcl

theorem inv_set_active {s : TradeTracker} (h : TrackerInv s) (trade_id : String) (r : Nat)
    (hr : dictLookup trade_id s.active_trades = some r) (u : Trade)
    (hu : u.closed = false ∧ u.final_result = "ACTIVE") :
    TrackerInv { s with store := s.store.set r u } := by
  obtain ⟨h1, h2, h3, h4⟩ := h
  have hmem : (trade_id, r) ∈ s.active_trades := dictLookup_mem hr
  have hrlt : r < s.store.length := (h2 _ hmem).1
  refine ⟨?_, ?_, h3, ?_⟩
  · intro v hv
    rcases mem_of_mem_set hv with hv | hv
    · subst hv
      exact Or.inl hu
    · exact h1 v hv
  · intro q hq
    obtain ⟨hlt, hcl⟩ := h2 q hq
    refine ⟨by simpa using hlt, ?_⟩
    show (nthD (s.store.set r u) q.2).closed = false
    by_cases hqr : q.2 = r
    · rw [hqr, nthD_set_self s.store r u hrlt]
      exact hu.1
    · rw [nthD_set_ne s.store r q.2 u hqr]
      exact hcl
  · intro r' hr'
    obtain ⟨hlt, hcl⟩ := h4 r' hr'
    refine ⟨by simpa using hlt, ?_⟩
    show (nthD (s.store.set r u) r').closed = true
    by_cases hqr : r' = r
    · subst hqr
      have hacl : (resolve s r').closed = false := (h2 _ hmem).2
      rw [hacl] at hcl
      cases hcl
    · rw [nthD_set_ne s.store r r' u hqr]
      exact hcl

theorem inv_close_update {s : TradeTracker} (h : TrackerInv s) (trade_id : String) (r : Nat)
    (hr : dictLookup trade_id s.active_trades = some r) (u : Trade)
    (hu : u.closed = true ∧ (u.final_result = "TP3" ∧ u.profit_r = 4 ∨
      u.final_result = "SL" ∧ u.profit_r = -1)) :
    TrackerInv { s with
      store := s.store.set r u
      active_trades := dictRemove trade_id s.active_trades
      closed_trades := s.closed_trades ++ [r] } := by
  obtain ⟨h1, h2, h3, h4⟩ := h
  have hmem : (trade_id, r) ∈ s.active_trades := dictLookup_mem hr
  have hrlt : r < s.store.length := (h2 _ hmem).1
  refine ⟨?_, ?_, nodup_snd_dictRemove h3, ?_⟩
  · intro v hv
    rcases mem_of_mem_set hv with hv | hv
    · subst hv
      rcases hu.2 with h' | h'
      · exact Or.inr (Or.inl ⟨hu.1, h'.1, h'.2⟩)
      · exact Or.inr (Or.inr ⟨hu.1, h'.1, h'.2⟩)
    · exact h1 v hv
  · intro q hq
    have hql := mem_dictRemove hq
    obtain ⟨hlt, hcl⟩ := h2 q hql
    have hqr : q.2 ≠ r := snd_ne_of_mem_dictRemove h3 hr q hq
    refine ⟨by simpa using hlt, ?_⟩
    show (nthD (s.store.set r u) q.2).closed = false
    rw [nthD_set_ne s.store r q.2 u hqr]
    exact hcl
  · intro r' hr'
    rcases List.mem_append.mp hr' with hr' | hr'
    · obtain ⟨hlt, hcl⟩ := h4 r' hr'
      refine ⟨by simpa using hlt, ?_⟩
      show (nthD (s.store.set r u) r').closed = true
      by_cases hqr : r' = r
      · subst hqr
        rw [nthD_set_self s.store r' u hrlt]
        exact hu.1
      · rw [nthD_set_ne s.store r r' u hqr]
        exact hcl
    · have hr'' : r' = r := by simpa using hr'
      subst hr''
      refine ⟨by simpa using hrlt, ?_⟩
      show (nthD (s.store.set r' u) r').closed = true
      rw [nthD_set_self s.store r' u hrlt]
      exact hu.1

theorem inv_reach {s : TradeTracker} (hs : Reach s) : TrackerInv s := by
  induction hs with
  | init => exact inv_init
  | create s t hs ht ih => exact inv_add ih t ht
  | tp s trade_id level p hs ih =>
    cases hl : dictLookup trade_id s.active_trades with
    | none =>
      rw [update_tp_absent _ _ _ _ hl]
      exact ih
    | some r =>
      have hmem : (trade_id, r) ∈ s.active_trades := dictLookup_mem hl
      have hrlt : r < s.store.length := (ih.2.1 _ hmem).1
      have hcl : (resolve s r).closed = false := (ih.2.1 _ hmem).2
      have hfin : (resolve s r).final_result = "ACTIVE" := by
        have hcl' : (nthD s.store r).closed = false := hcl
        rcases ih.1 _ (nthD_mem s.store r hrlt) with h' | h' | h'
        · exact h'.2
        · rw [h'.1] at hcl'
          cases hcl'
        · rw [h'.1] at hcl'
          cases hcl'
      by_cases h1 : level = "TP1"
      · subst h1
        rw [update_tp1_eq s trade_id p r hl]
        exact inv_set_active ih trade_id r hl (markTP1 (resolve s r)) ⟨hcl, hfin⟩
      · by_cases h2 : level = "TP2"
        · subst h2
          rw [update_tp2_eq s trade_id p r hl]
          exact inv_set_active ih trade_id r hl (markTP2 (resolve s r)) ⟨hcl, hfin⟩
        · by_cases h3 : level = "TP3"
          · subst h3
            rw [update_tp3_eq s trade_id p r hl]
            exact inv_close_update ih trade_id r hl (markTP3 (resolve s r))
              ⟨rfl, Or.inl ⟨rfl, rfl⟩⟩
          · rw [update_tp_other s trade_id level p r hl h1 h2 h3]
            exact ih
  | sl s trade_id hs ih =>
    cases hl : dictLookup trade_id s.active_trades with
    | none =>
      rw [update_sl_absent _ _ hl]
      exact ih
    | some r =>
      rw [update_sl_eq s trade_id r hl]
      exact inv_close_update ih trade_id r hl (markSL (resolve s r))
        ⟨rfl, Or.inr ⟨rfl, rfl⟩⟩
  | resetD s hs ih => exact ih
  | resetW s hs ih => exact ih

theorem closed_filter_no_label {s : TradeTracker}
    (h1 : ∀ t ∈ s.store,
      (t.closed = false ∧ t.final_result = "ACTIVE") ∨
      (t.closed = true ∧ t.final_result = "TP3" ∧ t.profit_r = 4) ∨
      (t.closed = true ∧ t.final_result = "SL" ∧ t.profit_r = -1))
    (lst : List Nat) (lbl : String) (hl3 : lbl ≠ "TP3") (hlS : lbl ≠ "SL") :
    ((lst.map (resolve s)).filter (fun t => t.closed)).filter
      (fun t => t.final_result == lbl) = [] := by
  rw [List.filter_eq_nil_iff]
  intro t ht
  have ht' := List.mem_filter.mp ht
  have hcl : t.closed = true := ht'.2
  obtain ⟨r, hrmem, hres⟩ := List.mem_map.mp ht'.1
  subst hres
  rcases nthD_mem_or_dummy s.store r with hm | hd
  · rcases h1 _ hm with h' | h' | h'
    · have hcl' : (nthD s.store r).closed = true := hcl
      rw [h'.1] at hcl'
      cases hcl'
    · have hfin : (resolve s r).final_result = "TP3" := h'.2.1
      simp only [hfin, beq_iff_eq]
      intro hh
      exact hl3 hh.symm
    · have hfin : (resolve s r).final_result = "SL" := h'.2.1
      simp only [hfin, beq_iff_eq]
      intro hh
      exact hlS hh.symm
  · have hcl' : dummyTrade.closed = true := by
      have : (resolve s r).closed = true := hcl
      rw [show resolve s r = dummyTrade from hd] at this
      exact this
    cases hcl'

/-- C9: in every state reachable from the empty tracker by createTrade,
applyTakeProfit, applyStopLoss and window resets, every trade in the
closed set is terminal — `final_result` is "TP3" with `profit_r = 4.0` or
"SL" with `profit_r = -1.0` (never "TP1" or "TP2") — and consequently the
`tp1_count` and `tp2_count` fields of every daily or weekly snapshot are
always 0. -/
theorem closed_set_terminal_and_intermediate_counts_zero (s : TradeTracker)
    (hs : Reach s) :
    (∀ r ∈ s.closed_trades,
      ((resolve s r).final_result = "TP3" ∧ (resolve s r).profit_r = 4) ∨
      ((resolve s r).final_result = "SL" ∧ (resolve s r).profit_r = -1)) ∧
    (∀ d, get_daily_stats s = some d → d.tp1Count = 0 ∧ d.tp2Count = 0) ∧
    (∀ w, get_weekly_stats s = some w → w.tp1Count = 0 ∧ w.tp2Count = 0) := by
  obtain ⟨h1, h2, h3, h4⟩ := inv_reach hs
  refine ⟨?_, ?_, ?_⟩
  · intro r hr
    obtain ⟨hlt, hcl⟩ := h4 r hr
    have hcl' : (nthD s.store r).closed = true := hcl
    rcases h1 _ (nthD_mem s.store r hlt) with h' | h' | h'
    · rw [h'.1] at hcl'
      cases hcl'
    · exact Or.inl ⟨h'.2.1, h'.2.2⟩
    · exact Or.inr ⟨h'.2.1, h'.2.2⟩
  all_goals
    have z1 : ∀ lst : List Nat,
        ((lst.map (resolve s)).filter (fun t => t.closed)).countP
          (fun t => t.final_result == "TP1") = 0 := fun lst => by
      rw [List.countP_eq_length_filter,
        closed_filter_no_label h1 lst "TP1" (by decide) (by decide)]
      rfl
  all_goals
    have z2 : ∀ lst : List Nat,
        ((lst.map (resolve s)).filter (fun t => t.closed)).countP
          (fun t => t.final_result == "TP2") = 0 := fun lst => by
      rw [List.countP_eq_length_filter,
        closed_filter_no_label h1 lst "TP2" (by decide) (by decide)]
      rfl
  · intro d hd
    rw [daily_stats_eq_claimed s] at hd
    unfold claimedDailySnapshot at hd
    split_ifs at hd
    all_goals try cases hd
    all_goals refine ⟨?_, ?_⟩
    all_goals simp only [DailyStats.tp1Count, DailyStats.tp2Count]
    all_goals first
      | rfl
      | exact z1 s.daily_trades
      | exact z2 s.daily_trades
  · intro w hw
    rw [weekly_stats_eq_claimed s] at hw
    unfold claimedWeeklySnapshot at hw
    split_ifs at hw
    all_goals try cases hw
    all_goals refine ⟨?_, ?_⟩
    all_goals simp only [WeeklyStats.tp1Count, WeeklyStats.tp2Count]
    all_goals first
      | rfl
      | exact z1 s.weekly_trades
      | exact z2 s.weekly_trades

/-- C9 witness: the tracker that created trade "A" and closed it at TP3 is
reachable, and the theorem instantiates there. -/
theorem closed_set_terminal_witness :
    Reach (update_trade_tp (add_trade TradeTracker.init tradeA) "A" "TP3" 0) ∧
    ((∀ r ∈ (update_trade_tp (add_trade TradeTracker.init tradeA) "A" "TP3" 0).closed_trades,
      ((resolve (update_trade_tp (add_trade TradeTracker.init tradeA) "A" "TP3" 0) r).final_result
          = "TP3" ∧
        (resolve (update_trade_tp (add_trade TradeTracker.init tradeA) "A" "TP3" 0) r).profit_r
          = 4) ∨
      ((resolve (update_trade_tp (add_trade TradeTracker.init tradeA) "A" "TP3" 0) r).final_result
          = "SL" ∧
        (resolve (update_trade_tp (add_trade TradeTracker.init tradeA) "A" "TP3" 0) r).profit_r
          = -1)) ∧
    (∀ d, get_daily_stats (update_trade_tp (add_trade TradeTracker.init tradeA) "A" "TP3" 0)
        = some d → d.tp1Count = 0 ∧ d.tp2Count = 0) ∧
    (∀ w, get_weekly_stats (update_trade_tp (add_trade TradeTracker.init tradeA) "A" "TP3" 0)
        = some w → w.tp1Count = 0 ∧ w.tp2Count = 0)) :=
  ⟨Reach.tp _ "A" "TP3" 0 (Reach.create TradeTracker.init tradeA Reach.init ⟨rfl, rfl⟩),
    closed_set_terminal_and_intermediate_counts_zero
      (update_trade_tp (add_trade TradeTracker.init tradeA) "A" "TP3" 0)
      (Reach.tp _ "A" "TP3" 0 (Reach.create TradeTracker.init tradeA Reach.init ⟨rfl, rfl⟩))⟩

theorem pipSize_pos (symbol : String) : 0 < pipSize symbol := by
  unfold pipSize
  split_ifs <;> norm_num

theorem stopProfile_pos (tf : String) :
    0 < (stopProfile tf).pips ∧ 0 < (stopProfile tf).cryptoPoints ∧
    0 < (stopProfile tf).goldPoints := by
  unfold stopProfile
  split_ifs <;> exact ⟨by norm_num, by norm_num, by norm_num⟩

theorem rewardMultiples_increasing (tf : String) :
    0 < (rewardMultiples tf).1 ∧
    (rewardMultiples tf).1 < (rewardMultiples tf).2.1 ∧
    (rewardMultiples tf).2.1 < (rewardMultiples tf).2.2 := by
  unfold rewardMultiples
  split_ifs <;> exact ⟨by norm_num, by norm_num, by norm_num⟩

theorem baseDistance_pos (mc : MarketClass) (tf : String) :
    0 < baseDistance mc (stopProfile tf) := by
  obtain ⟨hp, hc, hg⟩ := stopProfile_pos tf
  cases mc <;> simpa [baseDistance]

/-- Modelled from the spec: the stop distance in native units (section 4.1
step 3): the class-appropriate base distance, scaled by pip size for
FOREX and used unmodified otherwise. -/
def stopDist (symbol tf : String) (mc : MarketClass) : Rat :=
  match mc with
  | .forex => baseDistance mc (stopProfile tf) * pipSize symbol
  | _ => baseDistance mc (stopProfile tf)

theorem stopDist_pos (symbol tf : String) (mc : MarketClass) :
    0 < stopDist symbol tf mc := by
  cases mc with
  | forex => exact mul_pos (baseDistance_pos .forex tf) (pipSize_pos symbol)
  | crypto => exact baseDistance_pos .crypto tf
  | commodity => exact baseDistance_pos .commodity tf
  | index => exact baseDistance_pos .index tf

/-- C8: the Risk Engine (modelled from the spec, section 4.1 — absent from
`src/`) always places the stop on the losing side of the entry: for SHORT
the stop price is entry + distance with distance > 0 (strictly above
entry), for LONG it is entry − distance (strictly below entry); the three
take-profit records sit on the opposite, profit side of the entry at
strictly increasing distances, for every symbol, entry price, timeframe
string and market class. -/
theorem computePlan_stop_losing_side_targets_increasing
    (symbol : String) (entry : Rat) (tf : String) (mc : MarketClass) :
    ((computePlan symbol entry .short tf mc).stopLoss
      = entry + (computePlan symbol entry .short tf mc).stopDistance) ∧
    entry < (computePlan symbol entry .short tf mc).stopLoss ∧
    ((computePlan symbol entry .long tf mc).stopLoss
      = entry - (computePlan symbol entry .long tf mc).stopDistance) ∧
    (computePlan symbol entry .long tf mc).stopLoss < entry ∧
    0 < (computePlan symbol entry .short tf mc).stopDistance ∧
    (∃ a b c : TPRecord,
      (computePlan symbol entry .short tf mc).takeProfits = [a, b, c] ∧
      a.levelIndex = 1 ∧ b.levelIndex = 2 ∧ c.levelIndex = 3 ∧
      0 < a.distance ∧ a.distance < b.distance ∧ b.distance < c.distance ∧
      a.price = entry - a.distance ∧ b.price = entry - b.distance ∧
      c.price = entry - c.distance ∧
      c.price < b.price ∧ b.price < a.price ∧ a.price < entry) ∧
    (∃ a b c : TPRecord,
      (computePlan symbol entry .long tf mc).takeProfits = [a, b, c] ∧
      a.levelIndex = 1 ∧ b.levelIndex = 2 ∧ c.levelIndex = 3 ∧
      0 < a.distance ∧ a.distance < b.distance ∧ b.distance < c.distance ∧
      a.price = entry + a.distance ∧ b.price = entry + b.distance ∧
      c.price = entry + c.distance ∧
      entry < a.price ∧ a.price < b.price ∧ b.price < c.price) := by
  have hd := stopDist_pos symbol tf mc
  obtain ⟨hr1, hr12, hr23⟩ := rewardMultiples_increasing tf
  have hshort : computePlan symbol entry .short tf mc =
      { symbol := symbol, direction := .short, entry := entry
        stopLoss := entry + stopDist symbol tf mc
        stopDistance := stopDist symbol tf mc
        takeProfits :=
          [⟨1, entry - stopDist symbol tf mc * (rewardMultiples tf).1,
            stopDist symbol tf mc * (rewardMultiples tf).1, (rewardMultiples tf).1⟩,
          ⟨2, entry - stopDist symbol tf mc * (rewardMultiples tf).2.1,
            stopDist symbol tf mc * (rewardMultiples tf).2.1, (rewardMultiples tf).2.1⟩,
          ⟨3, entry - stopDist symbol tf mc * (rewardMultiples tf).2.2,
            stopDist symbol tf mc * (rewardMultiples tf).2.2, (rewardMultiples tf).2.2⟩] } :=
    rfl
  have hlong : computePlan symbol entry .long tf mc =
      { symbol := symbol, direction := .long, entry := entry
        stopLoss := entry - stopDist symbol tf mc
        stopDistance := stopDist symbol tf mc
        takeProfits :=
          [⟨1, entry + stopDist symbol tf mc * (rewardMultiples tf).1,
            stopDist symbol tf mc * (rewardMultiples tf).1, (rewardMultiples tf).1⟩,
          ⟨2, entry + stopDist symbol tf mc * (rewardMultiples tf).2.1,
            stopDist symbol tf mc * (rewardMultiples tf).2.1, (rewardMultiples tf).2.1⟩,
          ⟨3, entry + stopDist symbol tf mc * (rewardMultiples tf).2.2,
            stopDist symbol tf mc * (rewardMultiples tf).2.2, (rewardMultiples tf).2.2⟩] } :=
    rfl
  rw [hshort, hlong]
  have hm1 : 0 < stopDist symbol tf mc * (rewardMultiples tf).1 := mul_pos hd hr1
  have hm12 : stopDist symbol tf mc * (rewardMultiples tf).1
      < stopDist symbol tf mc * (rewardMultiples tf).2.1 :=
    mul_lt_mul_of_pos_left hr12 hd
  have hm23 : stopDist symbol tf mc * (rewardMultiples tf).2.1
      < stopDist symbol tf mc * (rewardMultiples tf).2.2 :=
    mul_lt_mul_of_pos_left hr23 hd
  refine ⟨rfl, by dsimp; linarith, rfl, by dsimp; linarith, by dsimp; linarith, ?_, ?_⟩
  · refine ⟨_, _, _, rfl, rfl, rfl, rfl, ?_, ?_, ?_, rfl, rfl, rfl, ?_, ?_, ?_⟩
    all_goals dsimp
    all_goals linarith
  · refine ⟨_, _, _, rfl, rfl, rfl, rfl, ?_, ?_, ?_, rfl, rfl, rfl, ?_, ?_, ?_⟩
    all_goals dsimp
    all_goals linarith

/-- Sanity check of the spec-modelled Risk Engine against the worked
example in the spec (section 8): EURUSD long at 1.1000 on M15 with 8 stop
pips, multiples (2, 3, 4) and pip size 0.0001 gives stop 1.0992 and
targets 1.1016, 1.1024, 1.1032. -/
theorem computePlan_spec_example :
    (computePlan "EURUSD" (11/10) .long "M15" .forex).stopLoss = 10992/10000 ∧
    ((computePlan "EURUSD" (11/10) .long "M15" .forex).takeProfits.map
      (fun t => t.price)) = [11016/10000, 11024/10000, 11032/10000] := by
  have c1 : strContains "EURUSD" "JPY" = false := by decide
  have c2 : strContains "EURUSD" "XAU" = false := by decide
  have c3 : strContains "EURUSD" "XAG" = false := by decide
  have c4 : strContains "EURUSD" "BTC" = false := by decide
  have c5 : strContains "EURUSD" "ETH" = false := by decide
  have c6 : strContains "EURUSD" "SOL" = false := by decide
  have hpip : pipSize "EURUSD" = 1/10000 := by
    simp [pipSize, c1, c2, c3, c4, c5, c6]
  have hsp : stopProfile "M15" = { pips := 8, cryptoPoints := 150, goldPoints := 4 } := by
    decide
  have hrm : rewardMultiples "M15" = (2, 3, 4) := by decide
  have hsd : stopDist "EURUSD" "M15" MarketClass.forex = 8/10000 := by
    show baseDistance .forex (stopProfile "M15") * pipSize "EURUSD" = 8/10000
    rw [hsp, hpip]
    show (8 : Rat) * (1/10000) = 8/10000
    norm_num
  constructor
  · show (11/10 : Rat) - stopDist "EURUSD" "M15" MarketClass.forex = 10992/10000
    rw [hsd]
    norm_num
  · show [(11/10 : Rat) + stopDist "EURUSD" "M15" MarketClass.forex * (rewardMultiples "M15").1,
      (11/10 : Rat) + stopDist "EURUSD" "M15" MarketClass.forex * (rewardMultiples "M15").2.1,
      (11/10 : Rat) + stopDist "EURUSD" "M15" MarketClass.forex * (rewardMultiples "M15").2.2]
      = [11016/10000, 11024/10000, 11032/10000]
    rw [hsd, hrm]
    norm_num
